import Mathlib

/-
Verification of the NeRF-or-Nothing go-web-server core: the Scene Entity
Store (internal/models/scene/SceneManager.go) and the Owner-Scoped Access
Gateway (the web server file: tokenRequired / loginUser / receiveVideo).

The MongoDB driver and the golang-jwt library are external dependencies of
the repository; they are modelled here by their contracts:
  - the scene collection is a partial map from document id to document,
    with `UpdateOne(filter, $set, upsert)` and `DeleteOne(filter)` reported
    through their matched/upserted/deleted counts exactly as the Go code
    inspects them;
  - the JWT HS256 signature is modelled by a concrete keyed hash over an
    injective encoding of the claims; the base64/JSON wire serialisation of
    the jwt library is abstracted as a `decode` parameter of the gateway.
All definitions are executable.
-/

/-! ### ObjectID (go.mongodb.org/mongo-driver/bson/primitive)

`primitive.ObjectID` is a 12-byte identifier; `ObjectIDFromHex` accepts
exactly a 24-character hex string (digits, `a`-`f`, `A`-`F`). -/

/-- A MongoDB ObjectID, modelled as its 12 decoded bytes. -/
structure ObjectId where
  bytes : List Nat
deriving DecidableEq

/-- Value of a single hex digit, accepting both cases as Go `encoding/hex` does. -/
def hexDigitVal (c : Char) : Option Nat :=
  if '0' ≤ c ∧ c ≤ '9' then some (c.toNat - 48)
  else if 'a' ≤ c ∧ c ≤ 'f' then some (c.toNat - 87)
  else if 'A' ≤ c ∧ c ≤ 'F' then some (c.toNat - 55)
  else none

/-- Decode a hex character string into bytes, two characters per byte;
fails on a non-hex character or an odd length, as Go `hex.DecodeString` does. -/
def hexBytes : List Char → Option (List Nat)
  | [] => some []
  | c1 :: c2 :: rest => do
      let hi ← hexDigitVal c1
      let lo ← hexDigitVal c2
      let bs ← hexBytes rest
      pure ((hi * 16 + lo) :: bs)
  | [_] => none

/-- `primitive.ObjectIDFromHex`: succeeds exactly on 24-character hex strings. -/
def ObjectIDFromHex (s : String) : Option ObjectId :=
  if s.length = 24 then (hexBytes s.data).map ObjectId.mk else none

/-! ### Scene Entity Store (internal/models/scene/SceneManager.go)

The Go sub-resource payload types (`Video`, `Sfm`, `Nerf`, `TrainingConfig`)
are carried opaquely by the manager, so the store is parametric in them.
A document holds the five top-level fields the manager reads and writes:
`name`, `video`, `sfm`, `nerf`, `config`; each may be absent. -/

/-- The error values of SceneManager.go. -/
inductive SceneErr where
  | sceneNotFound
  | videoNotFound
  | sfmNotFound
  | nerfNotFound
  | trainingConfigNotFound
deriving DecidableEq

/-- One document of the `nerfdb.scenes` collection, restricted to the fields
the SceneManager touches. An absent field is `none` (a nil pointer / zero
value on the Go side). -/
structure SceneDoc (V S N C : Type) where
  name : Option String
  video : Option V
  sfm : Option S
  nerf : Option N
  config : Option C
deriving DecidableEq

/-- A freshly inserted document before any `$set` field is applied. -/
def emptyDoc {V S N C : Type} : SceneDoc V S N C :=
  ⟨none, none, none, none, none⟩

/-- The scenes collection: at most one document per `_id`. -/
def SceneCollection (V S N C : Type) : Type :=
  ObjectId → Option (SceneDoc V S N C)

/-- The part of `mongo.UpdateResult` the SceneManager inspects. -/
structure UpdateResult where
  matchedCount : Nat
  upsertedCount : Nat
deriving DecidableEq

/-- The part of `mongo.DeleteResult` the SceneManager inspects. -/
structure DeleteResult where
  deletedCount : Nat
deriving DecidableEq

/-- `collection.UpdateOne(ctx, {_id: id}, {$set: ...}, upsert: true)`:
if a document matches the id it is modified in place (matched = 1);
otherwise a new document with that id is inserted and the `$set` fields are
applied to it (upserted = 1). -/
def updateOneSet {V S N C : Type} (col : SceneCollection V S N C) (id : ObjectId)
    (setFields : SceneDoc V S N C → SceneDoc V S N C) :
    UpdateResult × SceneCollection V S N C :=
  match col id with
  | some d => (⟨1, 0⟩, fun j => if j = id then some (setFields d) else col j)
  | none => (⟨0, 1⟩, fun j => if j = id then some (setFields emptyDoc) else col j)

/-- `collection.DeleteOne(ctx, {_id: id})`: removes the matching document
when present and reports how many documents were deleted. -/
def deleteOne {V S N C : Type} (col : SceneCollection V S N C) (id : ObjectId) :
    DeleteResult × SceneCollection V S N C :=
  match col id with
  | some _ => (⟨1⟩, fun j => if j = id then none else col j)
  | none => (⟨0⟩, col)

/-- `SceneManager.SetVideo`: upsert `{$set: {video: vid}}`, then
`ErrSceneNotFound` iff neither a match nor an upsert was reported. -/
def SetVideo {V S N C : Type} (col : SceneCollection V S N C) (id : ObjectId)
    (vid : V) : Except SceneErr Unit × SceneCollection V S N C :=
  let r := updateOneSet col id (fun d => { d with video := some vid })
  if r.1.matchedCount = 0 ∧ r.1.upsertedCount = 0 then
    (Except.error SceneErr.sceneNotFound, r.2)
  else (Except.ok (), r.2)

/-- `SceneManager.SetSfm`: upsert `{$set: {sfm: sfm}}`. -/
def SetSfm {V S N C : Type} (col : SceneCollection V S N C) (id : ObjectId)
    (sfm : S) : Except SceneErr Unit × SceneCollection V S N C :=
  let r := updateOneSet col id (fun d => { d with sfm := some sfm })
  if r.1.matchedCount = 0 ∧ r.1.upsertedCount = 0 then
    (Except.error SceneErr.sceneNotFound, r.2)
  else (Except.ok (), r.2)

/-- `SceneManager.SetNerf`: upsert `{$set: {nerf: nerf}}`. -/
def SetNerf {V S N C : Type} (col : SceneCollection V S N C) (id : ObjectId)
    (nerf : N) : Except SceneErr Unit × SceneCollection V S N C :=
  let r := updateOneSet col id (fun d => { d with nerf := some nerf })
  if r.1.matchedCount = 0 ∧ r.1.upsertedCount = 0 then
    (Except.error SceneErr.sceneNotFound, r.2)
  else (Except.ok (), r.2)

/-- `SceneManager.SetTrainingConfig`: upsert `{$set: {config: config}}`. -/
def SetTrainingConfig {V S N C : Type} (col : SceneCollection V S N C)
    (id : ObjectId) (cfg : C) : Except SceneErr Unit × SceneCollection V S N C :=
  let r := updateOneSet col id (fun d => { d with config := some cfg })
  if r.1.matchedCount = 0 ∧ r.1.upsertedCount = 0 then
    (Except.error SceneErr.sceneNotFound, r.2)
  else (Except.ok (), r.2)

/-- `SceneManager.SetSceneName`: upsert `{$set: {name: name}}`. -/
def SetSceneName {V S N C : Type} (col : SceneCollection V S N C)
    (id : ObjectId) (nm : String) : Except SceneErr Unit × SceneCollection V S N C :=
  let r := updateOneSet col id (fun d => { d with name := some nm })
  if r.1.matchedCount = 0 ∧ r.1.upsertedCount = 0 then
    (Except.error SceneErr.sceneNotFound, r.2)
  else (Except.ok (), r.2)

/-- `SceneManager.GetVideo`: `ErrSceneNotFound` when `FindOne` matches no
document; `ErrVideoNotFound` when the decoded `video` pointer is nil. -/
def GetVideo {V S N C : Type} (col : SceneCollection V S N C) (id : ObjectId) :
    Except SceneErr V :=
  match col id with
  | none => Except.error SceneErr.sceneNotFound
  | some d =>
    match d.video with
    | none => Except.error SceneErr.videoNotFound
    | some v => Except.ok v

/-- `SceneManager.GetSfm`: as `GetVideo`, for the `sfm` field. -/
def GetSfm {V S N C : Type} (col : SceneCollection V S N C) (id : ObjectId) :
    Except SceneErr S :=
  match col id with
  | none => Except.error SceneErr.sceneNotFound
  | some d =>
    match d.sfm with
    | none => Except.error SceneErr.sfmNotFound
    | some v => Except.ok v

/-- `SceneManager.GetNerf`: as `GetVideo`, for the `nerf` field. -/
def GetNerf {V S N C : Type} (col : SceneCollection V S N C) (id : ObjectId) :
    Except SceneErr N :=
  match col id with
  | none => Except.error SceneErr.sceneNotFound
  | some d =>
    match d.nerf with
    | none => Except.error SceneErr.nerfNotFound
    | some v => Except.ok v

/-- `SceneManager.GetTrainingConfig`: as `GetVideo`, for the `config` field. -/
def GetTrainingConfig {V S N C : Type} (col : SceneCollection V S N C)
    (id : ObjectId) : Except SceneErr C :=
  match col id with
  | none => Except.error SceneErr.sceneNotFound
  | some d =>
    match d.config with
    | none => Except.error SceneErr.trainingConfigNotFound
    | some v => Except.ok v

/-- `SceneManager.GetSceneName`: decodes into `struct{ Name string }`, so a
document with no `name` field yields the zero value `""` with no error;
only a missing document is an error (`ErrSceneNotFound`). -/
def GetSceneName {V S N C : Type} (col : SceneCollection V S N C)
    (id : ObjectId) : Except SceneErr String :=
  match col id with
  | none => Except.error SceneErr.sceneNotFound
  | some d => Except.ok (d.name.getD "")

/-- `SceneManager.DeleteScene`: `DeleteOne` on the id, then
`ErrSceneNotFound` iff nothing was deleted. -/
def DeleteScene {V S N C : Type} (col : SceneCollection V S N C)
    (id : ObjectId) : Except SceneErr Unit × SceneCollection V S N C :=
  let r := deleteOne col id
  if r.1.deletedCount = 0 then (Except.error SceneErr.sceneNotFound, r.2)
  else (Except.ok (), r.2)

/-! ### Token codec and Access Gateway (web server file)

The gateway splits the `Authorization` header on single spaces
(`strings.Split(authHeader, " ")`), modelled character by character so the
split is executable in the kernel. A token on the wire is `TokenWire`: the
structural content the jwt library recovers from the compact serialisation
(claims plus signature), or a malformed blob. -/

/-- Go `strings.Split(s, " ")` on the character list: splits at every
single space and keeps empty fields. -/
def splitSpaceChars : List Char → List (List Char)
  | [] => [[]]
  | c :: rest =>
    if c = ' ' then [] :: splitSpaceChars rest
    else
      match splitSpaceChars rest with
      | h :: t => (c :: h) :: t
      | [] => [[c]]

/-- Go `strings.Split(authHeader, " ")`. -/
def splitSpace (s : String) : List String :=
  (splitSpaceChars s.data).map String.mk

/-- A JSON claim value as far as the gateway distinguishes them: the code
only type-asserts `claims["sub"].(string)`. -/
inductive ClaimValue where
  | str (s : String)
  | num (n : Int)
  | boolVal (b : Bool)
  | null
deriving DecidableEq

/-- `token.Claims`: the map form (`jwt.MapClaims`) the gateway asserts,
or some other claims representation (assertion fails). -/
inductive JWTClaimsVal where
  | mapClaims (m : List (String × ClaimValue))
  | otherClaims
deriving DecidableEq

/-- Injective flat encoding of a claim value, input to the signature model. -/
def encodeClaimValue : ClaimValue → List Nat
  | ClaimValue.str s => 0 :: s.data.map Char.toNat
  | ClaimValue.num n => 1 :: (if n < 0 then 0 else 1) :: [n.natAbs]
  | ClaimValue.boolVal b => [2, if b then 1 else 0]
  | ClaimValue.null => [3]

/-- Flat encoding of the whole claims object (1114112 and 1114113 are
above every `Char.toNat`, so they act as separators). -/
def encodeClaims : JWTClaimsVal → List Nat
  | JWTClaimsVal.mapClaims m =>
      4 :: m.flatMap (fun p =>
        (p.1.data.map Char.toNat) ++ [1114112] ++ encodeClaimValue p.2 ++ [1114113])
  | JWTClaimsVal.otherClaims => [5]

/-- Model of the HS256 signature: a concrete keyed hash of the claims
encoding under the shared symmetric secret. The verifier recomputes it and
compares, exactly as HMAC verification does. -/
def hmacModel (secret : String) (cv : JWTClaimsVal) : Nat :=
  let sb := secret.data.map Char.toNat
  (sb ++ encodeClaims cv ++ sb).foldl (fun a n => (a * 131 + n + 7) % (2 ^ 64)) 5381

/-- A token as recovered from the wire: its claims and attached signature,
or a structurally malformed token string. -/
inductive TokenWire where
  | signedTok (claims : JWTClaimsVal) (sig : Nat)
  | malformed
deriving DecidableEq

/-- The parsed `jwt.Token`: its claims and the `Valid` flag. -/
structure JWTToken where
  claimsVal : JWTClaimsVal
  valid : Bool
deriving DecidableEq

/-- `jwt.Parse(tokenString, keyfunc)` with the shared secret: `none` is a
non-nil parse error (malformed token); otherwise `Valid` records whether
the attached signature verifies under the secret. -/
def jwtParse (secret : String) (w : TokenWire) : Option JWTToken :=
  match w with
  | TokenWire.malformed => none
  | TokenWire.signedTok cs sig =>
      some ⟨cs, decide (sig = hmacModel secret cs)⟩

/-- `claims["sub"]`: first-match lookup in the claims map. -/
def lookupClaim (k : String) : List (String × ClaimValue) → Option ClaimValue
  | [] => none
  | (k2, v) :: rest => if k2 = k then some v else lookupClaim k rest

/-- Outcome of a gateway-wrapped request: an Unauthorized JSON error
response (HTTP 401) issued by the middleware itself, or the wrapped
handler's result. -/
inductive GatewayResult (A : Type) where
  | unauthorized (msg : String)
  | handled (a : A)
deriving DecidableEq

/-- `WebServer.tokenRequired`: checks the `Authorization` header is
present, splits it on spaces requiring exactly `Bearer <token>`, parses
and signature-checks the token, asserts `MapClaims`, asserts
`claims["sub"]` is a string, and only then invokes the wrapped handler
with the user id bound. `decode` is the jwt library's wire deserialisation
from the token string. -/
def tokenRequired {A : Type} (secret : String) (decode : String → TokenWire)
    (handler : String → A) (authHeader : String) : GatewayResult A :=
  if authHeader = "" then GatewayResult.unauthorized "Missing Authorization header"
  else
    match splitSpace authHeader with
    | [p0, p1] =>
      if p0 = "Bearer" then
        match jwtParse secret (decode p1) with
        | none => GatewayResult.unauthorized "Invalid token"
        | some tok =>
          if tok.valid then
            match tok.claimsVal with
            | JWTClaimsVal.mapClaims m =>
              match lookupClaim "sub" m with
              | some (ClaimValue.str userID) => GatewayResult.handled (handler userID)
              | _ => GatewayResult.unauthorized "Invalid user ID in token"
            | JWTClaimsVal.otherClaims => GatewayResult.unauthorized "Invalid token claims"
          else GatewayResult.unauthorized "Invalid token"
      else GatewayResult.unauthorized "Invalid Authorization header format. Expected: `Bearer <token>`"
    | _ => GatewayResult.unauthorized "Invalid Authorization header format. Expected: `Bearer <token>`"

/-- The token issued by `loginUser`: `jwt.NewWithClaims(HS256,
MapClaims{"sub": userID})` signed with the shared secret. -/
def issueToken (secret userID : String) : TokenWire :=
  TokenWire.signedTok (JWTClaimsVal.mapClaims [("sub", ClaimValue.str userID)])
    (hmacModel secret (JWTClaimsVal.mapClaims [("sub", ClaimValue.str userID)]))

/-- Responses a protected handler can produce, as far as the claims here
distinguish them. -/
inductive HandlerResult where
  | badRequest (msg : String)
  | accepted (sceneIdHex : String)
  | serverError (msg : String)
deriving DecidableEq

/-- `WebServer.receiveVideo` up to its first step: converts the
gateway-bound user id with `primitive.ObjectIDFromHex` and answers
`400 Bad Request` on failure; the rest of the handler (request parsing and
the service call) is the continuation `rest`. -/
def receiveVideo (rest : ObjectId → HandlerResult) (userIDStr : String) :
    HandlerResult :=
  match ObjectIDFromHex userIDStr with
  | none => HandlerResult.badRequest "Invalid user ID"
  | some uid => rest uid

/-! ### Concrete objects used by the witness theorems -/

/-- The ObjectID decoded from hex "507f1f77bcf86cd799439011". -/
def idA : ObjectId := ⟨[80, 127, 31, 119, 188, 248, 108, 215, 153, 67, 144, 17]⟩

/-- A second, distinct ObjectID. -/
def idB : ObjectId := ⟨[1, 2, 3, 4, 5, 6, 7, 8, 9, 10, 11, 12]⟩

/-- The empty collection. -/
def colEmpty : SceneCollection Unit Unit Unit Unit := fun _ => none

/-- A collection holding one document, with every sub-resource absent. -/
def colA : SceneCollection Unit Unit Unit Unit :=
  fun j => if j = idA then some emptyDoc else none

/-! ### Theorems -/

/-- C3: every setX operation (setVideo, setSfm, setNerf, setTrainingConfig,
setSceneName) succeeds with no error whether the document already exists or
is created by this call; the upsert always reports exactly one of a match
or a creation, so the SceneNotFound branch guarding against "neither" never
fires. -/
theorem c3_set_upsert_always_succeeds {V S N C : Type}
    (col : SceneCollection V S N C) (id : ObjectId)
    (v : V) (s : S) (n : N) (c : C) (nm : String) :
    (SetVideo col id v).1 = Except.ok () ∧
    (SetSfm col id s).1 = Except.ok () ∧
    (SetNerf col id n).1 = Except.ok () ∧
    (SetTrainingConfig col id c).1 = Except.ok () ∧
    (SetSceneName col id nm).1 = Except.ok () ∧
    (∀ f : SceneDoc V S N C → SceneDoc V S N C,
      (updateOneSet col id f).1.matchedCount +
        (updateOneSet col id f).1.upsertedCount = 1) := by
  cases h : col id <;>
    simp [SetVideo, SetSfm, SetNerf, SetTrainingConfig, SetSceneName,
      updateOneSet, h]

/-- C7: calling setVideo twice with the same value on the same scene
identifier is idempotent: the second call returns no error, the stored
video sub-resource equals that value, and the whole collection is left
exactly as after the first call (a replacement, not an append). -/
theorem c7_setVideo_idempotent {V S N C : Type}
    (col : SceneCollection V S N C) (id : ObjectId) (v : V) :
    (SetVideo (SetVideo col id v).2 id v).1 = Except.ok () ∧
    (SetVideo (SetVideo col id v).2 id v).2 = (SetVideo col id v).2 ∧
    ∃ d, (SetVideo (SetVideo col id v).2 id v).2 id = some d ∧
      d.video = some v := by
  cases h : col id <;>
  · refine ⟨?_, ?_, ?_⟩
    · simp [SetVideo, updateOneSet, h]
    · funext j
      by_cases hj : j = id <;> simp [SetVideo, updateOneSet, h, hj]
    · simp [SetVideo, updateOneSet, h]

/-- C2: each of getNerf, getVideo, getSfm, getTrainingConfig fails with
SceneNotFound when no document exists for the identifier, and with its
sub-resource-specific not-found error when the document exists but that
sub-resource was never set; the two error values are distinct, so callers
can tell the outcomes apart. -/
theorem c2_notfound_precision {V S N C : Type}
    (col : SceneCollection V S N C) (id : ObjectId) :
    (col id = none →
      GetNerf col id = Except.error SceneErr.sceneNotFound ∧
      GetVideo col id = Except.error SceneErr.sceneNotFound ∧
      GetSfm col id = Except.error SceneErr.sceneNotFound ∧
      GetTrainingConfig col id = Except.error SceneErr.sceneNotFound) ∧
    (∀ d, col id = some d →
      (d.nerf = none → GetNerf col id = Except.error SceneErr.nerfNotFound) ∧
      (d.video = none → GetVideo col id = Except.error SceneErr.videoNotFound) ∧
      (d.sfm = none → GetSfm col id = Except.error SceneErr.sfmNotFound) ∧
      (d.config = none →
        GetTrainingConfig col id = Except.error SceneErr.trainingConfigNotFound)) ∧
    (SceneErr.sceneNotFound ≠ SceneErr.nerfNotFound ∧
     SceneErr.sceneNotFound ≠ SceneErr.videoNotFound ∧
     SceneErr.sceneNotFound ≠ SceneErr.sfmNotFound ∧
     SceneErr.sceneNotFound ≠ SceneErr.trainingConfigNotFound) := by
  refine ⟨fun h => ?_, fun d hd => ?_, by simp⟩
  · simp [GetNerf, GetVideo, GetSfm, GetTrainingConfig, h]
  · refine ⟨fun hn => ?_, fun hv => ?_, fun hs => ?_, fun hc => ?_⟩
    · simp [GetNerf, hd, hn]
    · simp [GetVideo, hd, hv]
    · simp [GetSfm, hd, hs]
    · simp [GetTrainingConfig, hd, hc]

/-- Witness for C2 at a nonexistent scene and at an existing scene with no
nerf sub-resource. -/
theorem c2_notfound_precision_witness :
    GetNerf colEmpty idA = Except.error SceneErr.sceneNotFound ∧
    GetNerf colA idA = Except.error SceneErr.nerfNotFound := by
  have h1 := (c2_notfound_precision colEmpty idA).1 rfl
  have h2 := (c2_notfound_precision colA idA).2.1 emptyDoc rfl
  exact ⟨h1.1, h2.1 rfl⟩

/-- C8: getSceneName returns the empty string with no error on an existing
scene whose name was never set, yet still fails with SceneNotFound on a
nonexistent scene, unlike the other getters which have a sub-resource
specific error. -/
theorem c8_getSceneName_asymmetry {V S N C : Type}
    (col : SceneCollection V S N C) (id : ObjectId) :
    (col id = none →
      GetSceneName col id = Except.error SceneErr.sceneNotFound) ∧
    (∀ d, col id = some d → d.name = none →
      GetSceneName col id = Except.ok "") ∧
    (∀ d, col id = some d → ∃ s, GetSceneName col id = Except.ok s) := by
  refine ⟨fun h => ?_, fun d hd hn => ?_, fun d hd => ?_⟩
  · simp [GetSceneName, h]
  · simp [GetSceneName, hd, hn]
  · exact ⟨d.name.getD "", by simp [GetSceneName, hd]⟩

/-- Witness for C8: the one-document collection where the name is absent
gives an empty-string success, the empty collection gives SceneNotFound. -/
theorem c8_getSceneName_asymmetry_witness :
    GetSceneName colA idA = Except.ok "" ∧
    GetSceneName colEmpty idA = Except.error SceneErr.sceneNotFound := by
  refine ⟨(c8_getSceneName_asymmetry colA idA).2.1 emptyDoc rfl rfl,
    (c8_getSceneName_asymmetry colEmpty idA).1 rfl⟩

/-- C4: after deleteScene succeeds on an identifier, the document is gone:
every getter on that identifier fails with SceneNotFound, and a second
deleteScene with no intervening writes fails with SceneNotFound; the whole
document with all sub-resources is removed by the one delete. -/
theorem c4_delete_atomic {V S N C : Type}
    (col : SceneCollection V S N C) (id : ObjectId)
    (h : (DeleteScene col id).1 = Except.ok ()) :
    (DeleteScene col id).2 id = none ∧
    GetVideo (DeleteScene col id).2 id = Except.error SceneErr.sceneNotFound ∧
    GetSfm (DeleteScene col id).2 id = Except.error SceneErr.sceneNotFound ∧
    GetNerf (DeleteScene col id).2 id = Except.error SceneErr.sceneNotFound ∧
    GetTrainingConfig (DeleteScene col id).2 id =
      Except.error SceneErr.sceneNotFound ∧
    GetSceneName (DeleteScene col id).2 id =
      Except.error SceneErr.sceneNotFound ∧
    (DeleteScene (DeleteScene col id).2 id).1 =
      Except.error SceneErr.sceneNotFound := by
  cases hc : col id with
  | none => simp [DeleteScene, deleteOne, hc] at h
  | some d =>
    simp [DeleteScene, deleteOne, hc, GetVideo, GetSfm, GetNerf,
      GetTrainingConfig, GetSceneName]

/-- Witness for C4: deleting the one stored document, then reading and
deleting again. -/
theorem c4_delete_atomic_witness :
    GetVideo (DeleteScene colA idA).2 idA = Except.error SceneErr.sceneNotFound ∧
    (DeleteScene (DeleteScene colA idA).2 idA).1 =
      Except.error SceneErr.sceneNotFound := by
  have h := c4_delete_atomic colA idA rfl
  exact ⟨h.2.1, h.2.2.2.2.2.2⟩

/-- C6: setSfm on a scene whose document has no video sub-resource (or does
not exist yet) succeeds, stores the sfm value while leaving the video field
absent, and a subsequent getVideo fails with VideoNotFound; more generally
every setX writes only its own field of the document, keeping the other
four exactly as they were (or absent on a fresh document). -/
theorem c6_stage_independence {V S N C : Type}
    (col : SceneCollection V S N C) (id : ObjectId)
    (s : S) (v : V) (n : N) (c : C) (nm : String)
    (hv : ∀ d, col id = some d → d.video = none) :
    (SetSfm col id s).1 = Except.ok () ∧
    (SetSfm col id s).2 id = some { (col id).getD emptyDoc with sfm := some s } ∧
    GetVideo (SetSfm col id s).2 id = Except.error SceneErr.videoNotFound ∧
    (SetVideo col id v).2 id =
      some { (col id).getD emptyDoc with video := some v } ∧
    (SetNerf col id n).2 id =
      some { (col id).getD emptyDoc with nerf := some n } ∧
    (SetTrainingConfig col id c).2 id =
      some { (col id).getD emptyDoc with config := some c } ∧
    (SetSceneName col id nm).2 id =
      some { (col id).getD emptyDoc with name := some nm } := by
  cases hc : col id with
  | none =>
    simp [SetSfm, SetVideo, SetNerf, SetTrainingConfig, SetSceneName,
      updateOneSet, hc, GetVideo, emptyDoc]
  | some d =>
    have hdv : d.video = none := hv d hc
    simp [SetSfm, SetVideo, SetNerf, SetTrainingConfig, SetSceneName,
      updateOneSet, hc, GetVideo, hdv]

/-- Witness for C6: writing sfm into the one-document collection whose
document has no video leaves getVideo failing with VideoNotFound. -/
theorem c6_stage_independence_witness :
    (SetSfm colA idA ()).1 = Except.ok () ∧
    GetVideo (SetSfm colA idA ()).2 idA = Except.error SceneErr.videoNotFound := by
  have h := c6_stage_independence colA idA () () () () "scene"
    (fun d hd => by
      have : emptyDoc = d := by
        have hda : colA idA = some (emptyDoc : SceneDoc Unit Unit Unit Unit) := rfl
        exact Option.some.inj (hda ▸ hd)
      exact this ▸ rfl)
  exact ⟨h.1, h.2.2.1⟩

/-- C10: deleteScene removes at most the single document whose identifier
matched: for any other identifier the stored document and the result of
every getter are unchanged by the delete. -/
theorem c10_delete_frame {V S N C : Type}
    (col : SceneCollection V S N C) (id1 id2 : ObjectId) (hne : id1 ≠ id2) :
    (DeleteScene col id1).2 id2 = col id2 ∧
    GetVideo (DeleteScene col id1).2 id2 = GetVideo col id2 ∧
    GetSfm (DeleteScene col id1).2 id2 = GetSfm col id2 ∧
    GetNerf (DeleteScene col id1).2 id2 = GetNerf col id2 ∧
    GetTrainingConfig (DeleteScene col id1).2 id2 = GetTrainingConfig col id2 ∧
    GetSceneName (DeleteScene col id1).2 id2 = GetSceneName col id2 := by
  have hk : (DeleteScene col id1).2 id2 = col id2 := by
    cases hc : col id1 with
    | none => simp [DeleteScene, deleteOne, hc]
    | some d =>
      simp [DeleteScene, deleteOne, hc]
      intro habs
      exact absurd habs.symm hne
  refine ⟨hk, ?_, ?_, ?_, ?_, ?_⟩ <;>
    simp only [GetVideo, GetSfm, GetNerf, GetTrainingConfig, GetSceneName, hk]

/-- Witness for C10: deleting one identifier leaves the document stored
under a different identifier untouched. -/
theorem c10_delete_frame_witness :
    (DeleteScene colA idB).2 idA = colA idA ∧
    GetSceneName (DeleteScene colA idB).2 idA = GetSceneName colA idA := by
  have h := c10_delete_frame colA idB idA (by decide)
  exact ⟨h.1, h.2.2.2.2.2⟩

/-- Helper: the success path of the gateway. When the header splits as
`Bearer` plus a token whose parse verifies with `MapClaims` carrying a
string `sub`, the wrapped handler runs with that user id. -/
theorem tokenRequired_handled {A : Type} (secret : String)
    (decode : String → TokenWire) (handler : String → A) (hdr t : String)
    (m : List (String × ClaimValue)) (u : String)
    (h0 : hdr ≠ "") (hsp : splitSpace hdr = ["Bearer", t])
    (hjp : jwtParse secret (decode t) = some ⟨JWTClaimsVal.mapClaims m, true⟩)
    (hlk : lookupClaim "sub" m = some (ClaimValue.str u)) :
    tokenRequired secret decode handler hdr = GatewayResult.handled (handler u) := by
  unfold tokenRequired
  rw [if_neg h0, hsp]
  simp [hjp, hlk]

/-- C1: the gateway invokes the wrapped handler exactly when every check
passes: nonempty Authorization header, exactly two space-separated parts
with the first equal to Bearer, a token whose signature verifies, map-shaped
claims, and a string sub claim; in every other case it answers Unauthorized
and the handler is never invoked. -/
theorem c1_gateway_guard {A : Type} (secret : String)
    (decode : String → TokenWire) (handler : String → A) (hdr : String) :
    (hdr = "" → tokenRequired secret decode handler hdr =
      GatewayResult.unauthorized "Missing Authorization header") ∧
    ((∃ a, tokenRequired secret decode handler hdr = GatewayResult.handled a) ↔
      (hdr ≠ "" ∧ ∃ t m u, splitSpace hdr = ["Bearer", t] ∧
        jwtParse secret (decode t) = some ⟨JWTClaimsVal.mapClaims m, true⟩ ∧
        lookupClaim "sub" m = some (ClaimValue.str u))) ∧
    (∀ t m u, hdr ≠ "" → splitSpace hdr = ["Bearer", t] →
      jwtParse secret (decode t) = some ⟨JWTClaimsVal.mapClaims m, true⟩ →
      lookupClaim "sub" m = some (ClaimValue.str u) →
      tokenRequired secret decode handler hdr =
        GatewayResult.handled (handler u)) ∧
    (¬ (hdr ≠ "" ∧ ∃ t m u, splitSpace hdr = ["Bearer", t] ∧
        jwtParse secret (decode t) = some ⟨JWTClaimsVal.mapClaims m, true⟩ ∧
        lookupClaim "sub" m = some (ClaimValue.str u)) →
      ∃ msg, tokenRequired secret decode handler hdr =
        GatewayResult.unauthorized msg) := by
  have hfwd : ∀ a, tokenRequired secret decode handler hdr =
      GatewayResult.handled a →
      (hdr ≠ "" ∧ ∃ t m u, splitSpace hdr = ["Bearer", t] ∧
        jwtParse secret (decode t) = some ⟨JWTClaimsVal.mapClaims m, true⟩ ∧
        lookupClaim "sub" m = some (ClaimValue.str u)) := by
    intro a ha
    unfold tokenRequired at ha
    by_cases h0 : hdr = ""
    · rw [if_pos h0] at ha
      simp at ha
    · rw [if_neg h0] at ha
      refine ⟨h0, ?_⟩
      split at ha
      next =>
        rename_i p0 p1 heq
        split at ha
        next hb =>
          subst hb
          split at ha
          next hjp => simp at ha
          next tok hjp =>
            split at ha
            next hv =>
              split at ha
              next m hcv =>
                split at ha
                next u hlk =>
                  have htok : tok = ⟨JWTClaimsVal.mapClaims m, true⟩ := by
                    cases tok
                    simp_all
                  rw [htok] at hjp
                  exact ⟨p1, m, u, heq, hjp, hlk⟩
                next hne => simp at ha
              next hcv => simp at ha
            next hv => simp at ha
        next hb => simp at ha
      next ps hne =>
        simp at ha
  refine ⟨fun h0 => by rw [tokenRequired, if_pos h0], ?_, ?_, ?_⟩
  · constructor
    · rintro ⟨a, ha⟩
      exact hfwd a ha
    · rintro ⟨h0, t, m, u, hsp, hjp, hlk⟩
      exact ⟨handler u, tokenRequired_handled secret decode handler hdr t m u h0 hsp hjp hlk⟩
  · intro t m u h0 hsp hjp hlk
    exact tokenRequired_handled secret decode handler hdr t m u h0 hsp hjp hlk
  · intro hngood
    cases htr : tokenRequired secret decode handler hdr with
    | unauthorized msg => exact ⟨msg, rfl⟩
    | handled a => exact absurd (hfwd a htr) hngood

/-- Wire decoder used by the C1 witness: one known token string. -/
def decodeC1 : String → TokenWire := fun t =>
  if t = "tok1" then issueToken "secretC1" "aaaabbbbccccddddeeeeffff"
  else TokenWire.malformed

/-- Witness for C1: a well-formed bearer token reaches the handler with its
sub claim bound, and a missing header is rejected as Unauthorized. -/
theorem c1_gateway_guard_witness :
    tokenRequired "secretC1" decodeC1 (fun u => u) "Bearer tok1" =
      GatewayResult.handled "aaaabbbbccccddddeeeeffff" ∧
    tokenRequired "secretC1" decodeC1 (fun u => u) "" =
      GatewayResult.unauthorized "Missing Authorization header" := by
  refine ⟨(c1_gateway_guard "secretC1" decodeC1 (fun u => u) "Bearer tok1").2.2.1
      "tok1" [("sub", ClaimValue.str "aaaabbbbccccddddeeeeffff")]
      "aaaabbbbccccddddeeeeffff" (by decide) (by decide)
      (by simp [decodeC1, jwtParse, issueToken]) (by decide),
    (c1_gateway_guard "secretC1" decodeC1 (fun u => u) "").1 rfl⟩

/-- C5: a token issued by loginUser for owner identity
"507f1f77bcf86cd799439011" under the shared secret, presented back through
the gateway with the same secret, verifies and binds exactly that string as
the owner identity. -/
theorem c5_token_roundtrip {A : Type} (secret : String)
    (decode : String → TokenWire) (handler : String → A) (hdr t : String)
    (h0 : hdr ≠ "") (hsp : splitSpace hdr = ["Bearer", t])
    (hdec : decode t = issueToken secret "507f1f77bcf86cd799439011") :
    tokenRequired secret decode handler hdr =
      GatewayResult.handled (handler "507f1f77bcf86cd799439011") := by
  refine tokenRequired_handled secret decode handler hdr t
    [("sub", ClaimValue.str "507f1f77bcf86cd799439011")]
    "507f1f77bcf86cd799439011" h0 hsp ?_ (by simp [lookupClaim])
  rw [hdec]
  simp [jwtParse, issueToken]

/-- Wire decoder used by the C5 witness. -/
def decodeC5 : String → TokenWire := fun t =>
  if t = "tok5" then issueToken "secretC5" "507f1f77bcf86cd799439011"
  else TokenWire.malformed

/-- Witness for C5 at a concrete secret and token string. -/
theorem c5_token_roundtrip_witness :
    tokenRequired "secretC5" decodeC5 (fun u => u) "Bearer tok5" =
      GatewayResult.handled "507f1f77bcf86cd799439011" :=
  c5_token_roundtrip "secretC5" decodeC5 (fun u => u) "Bearer tok5" "tok5"
    (by decide) (by decide) rfl

/-- C9: the gateway binds whatever string the sub claim holds, with no
format check: any string sub on a correctly signed token reaches the
handler; receiveVideo then rejects a non-24-hex identity with a
400 Bad Request response, not Unauthorized. -/
theorem c9_sub_format_unchecked (secret : String) (decode : String → TokenWire)
    (rest : ObjectId → HandlerResult) (hdr t u : String)
    (h0 : hdr ≠ "") (hsp : splitSpace hdr = ["Bearer", t])
    (hjp : jwtParse secret (decode t) =
      some ⟨JWTClaimsVal.mapClaims [("sub", ClaimValue.str u)], true⟩) :
    tokenRequired secret decode (receiveVideo rest) hdr =
      GatewayResult.handled (receiveVideo rest u) ∧
    (ObjectIDFromHex u = none →
      tokenRequired secret decode (receiveVideo rest) hdr =
        GatewayResult.handled (HandlerResult.badRequest "Invalid user ID") ∧
      ∀ msg, tokenRequired secret decode (receiveVideo rest) hdr ≠
        GatewayResult.unauthorized msg) := by
  have h := tokenRequired_handled secret decode (receiveVideo rest) hdr t
    [("sub", ClaimValue.str u)] u h0 hsp hjp (by simp [lookupClaim])
  refine ⟨h, fun hnone => ⟨?_, ?_⟩⟩
  · rw [h]
    simp [receiveVideo, hnone]
  · intro msg
    rw [h]
    simp

/-- Wire decoder used by the C9 witness: a signed token whose sub claim is
24 characters of `z`, not a hex identifier. -/
def decodeC9 : String → TokenWire := fun t =>
  if t = "tok9" then issueToken "secretC9" "zzzzzzzzzzzzzzzzzzzzzzzz"
  else TokenWire.malformed

/-- Witness for C9: the gateway accepts the non-hex sub and receiveVideo
answers 400 Bad Request. -/
theorem c9_sub_format_unchecked_witness :
    tokenRequired "secretC9" decodeC9
      (receiveVideo (fun _ => HandlerResult.accepted "ok")) "Bearer tok9" =
      GatewayResult.handled (HandlerResult.badRequest "Invalid user ID") := by
  have h := c9_sub_format_unchecked "secretC9" decodeC9
    (fun _ => HandlerResult.accepted "ok") "Bearer tok9" "tok9"
    "zzzzzzzzzzzzzzzzzzzzzzzz" (by decide) (by decide)
    (by simp [decodeC9, jwtParse, issueToken])
  exact (h.2 (by decide)).1
